import Mathlib

/-!
Shallow embedding of `pyowm/uvindexapi30/uvindex.py` and
`pyowm/pollutionapi30/so2index.py`.

Python floats are modelled as `ℚ` (the comparisons performed by the code are
order-faithful for the decimal constants involved), Python ints as `ℤ`,
raised exceptions as the `Except PyError` monad, and dynamically typed
values (dictionary payloads, SO2 samples) as the inductive `PyObj`.
The system clock (`pyowm.utils.timestamps.now`) is injected as an explicit
`now : ℤ` parameter.
-/

/-- A dynamically typed Python value, as far as the two modules need them. -/
inductive PyObj where
  | pyNone : PyObj
  | pyInt : ℤ → PyObj
  | pyFloat : ℚ → PyObj
  | pyStr : String → PyObj
  | pyList : List PyObj → PyObj
  | pyTuple : List PyObj → PyObj
  | pyDict : List (String × PyObj) → PyObj

/-- The exceptions the two modules can raise: `ValueError` (invalid argument),
`TypeError`, `KeyError` (missing dictionary key), and
`ParseResponseError` (from `pyowm.exceptions.parse_response_error`), the last
carrying the wrapped cause of the failure when there is one. -/
inductive PyError where
  | valueError : String → PyError
  | typeError : String → PyError
  | keyError : String → PyError
  | parseResponseError : String → Option PyError → PyError

/-- True exactly on the Python `None` object. -/
def PyObj.isNone : PyObj → Bool
  | .pyNone => true
  | _ => false

/-- Models `isinstance(x, list)`: true exactly on Python lists (a tuple or a
dict is not a list). -/
def PyObj.isList : PyObj → Bool
  | .pyList _ => true
  | _ => false

/-- Models `d[k]` subscripting: a `KeyError` on a dict lacking the key, a
`TypeError` on a non-dict. -/
def PyObj.getItem (d : PyObj) (k : String) : Except PyError PyObj :=
  match d with
  | .pyDict entries =>
    match entries.lookup k with
    | some v => .ok v
    | none => .error (.keyError k)
  | _ => .error (.typeError "object is not subscriptable")

/-- The `Location` value (`pyowm.weatherapi25.location`) as the two modules
construct it: name, longitude, latitude, country. -/
structure Location where
  name : Option String
  lon : ℚ
  lat : ℚ
  country : Option String
deriving DecidableEq

/-- Embeds an optional string as a Python value. -/
def optStrObj : Option String → PyObj
  | none => .pyNone
  | some s => .pyStr s

/-- Modelled from the spec: `Location.to_dict` (in
`pyowm/weatherapi25/location.py`, not under `src/`) is the Location value's
own canonical dict serialization of its fields. -/
def Location.to_dict (l : Location) : PyObj :=
  .pyDict [("name", optStrObj l.name),
           ("coordinates", .pyDict [("lon", .pyFloat l.lon), ("lat", .pyFloat l.lat)]),
           ("country", optStrObj l.country)]

/-- The piecewise UV exposure-risk classifier `uv_intensity_to_exposure_risk`
of `uvindex.py`, an if/elif chain of half-open interval tests ending in a
catch-all `else`. -/
def uv_intensity_to_exposure_risk (uv_intensity : ℚ) : String :=
  if 0.0 ≤ uv_intensity ∧ uv_intensity < 2.9 then "low"
  else if 2.9 ≤ uv_intensity ∧ uv_intensity < 5.9 then "moderate"
  else if 5.9 ≤ uv_intensity ∧ uv_intensity < 7.9 then "high"
  else if 7.9 ≤ uv_intensity ∧ uv_intensity < 10.9 then "very high"
  else "extreme"

/-- The `SO2Index` record: reference time, location, interval label,
the SO2 samples held verbatim as the Python value that was passed in, and
reception time. -/
structure SO2Index where
  reference_time : ℤ
  location : Location
  interval : Option String
  so2_samples : PyObj
  reception_time : ℤ

/-- The `UVIndex` record: reference time, location, UV intensity value and
reception time. -/
structure UVIndex where
  reference_time : ℤ
  location : Location
  value : ℚ
  reception_time : ℤ

/-- `SO2Index.__init__`: rejects a negative reference time, then a
`so2_samples` argument that is not a list, then a negative reception time;
otherwise stores the fields unchanged. -/
def SO2Index.init (reference_time : ℤ) (location : Location) (interval : Option String)
    (so2_samples : PyObj) (reception_time : ℤ) : Except PyError SO2Index :=
  if reference_time < 0 then
    .error (.valueError "reference_time must be greater than 0")
  else if ¬ so2_samples.isList then
    .error (.valueError "so2_samples must be a list")
  else if reception_time < 0 then
    .error (.valueError "reception_time must be greater than 0")
  else
    .ok ⟨reference_time, location, interval, so2_samples, reception_time⟩

/-- `UVIndex.__init__`: rejects a negative reference time, then a negative
UV intensity value, then a negative reception time; otherwise stores the
fields unchanged. -/
def UVIndex.init (reference_time : ℤ) (location : Location) (value : ℚ)
    (reception_time : ℤ) : Except PyError UVIndex :=
  if reference_time < 0 then
    .error (.valueError "referencetime must be greater than 0")
  else if value < 0.0 then
    .error (.valueError "UV intensity must be greater than 0")
  else if reception_time < 0 then
    .error (.valueError "reception_time must be greater than 0")
  else
    .ok ⟨reference_time, location, value, reception_time⟩

/-- Modelled from the spec: `formatting.timeformat` (in
`pyowm/utils/formatting.py`, not under `src/`) in its default `unix` mode
returns the stored UNIX integer unchanged and fails with an invalid-argument
condition on a negative time. -/
def timeformat_unix (t : ℤ) : Except PyError ℤ :=
  if t < 0 then .error (.valueError "Negative time values not allowed") else .ok t

/-- `SO2Index.get_reference_time` with the default `unix` time format. -/
def SO2Index.get_reference_time (r : SO2Index) : Except PyError ℤ :=
  timeformat_unix r.reference_time

/-- `SO2Index.get_reception_time` with the default `unix` time format. -/
def SO2Index.get_reception_time (r : SO2Index) : Except PyError ℤ :=
  timeformat_unix r.reception_time

/-- `SO2Index.get_location`. -/
def SO2Index.get_location (r : SO2Index) : Location := r.location

/-- `SO2Index.get_interval`. -/
def SO2Index.get_interval (r : SO2Index) : Option String := r.interval

/-- `SO2Index.get_so2_samples`. -/
def SO2Index.get_so2_samples (r : SO2Index) : PyObj := r.so2_samples

/-- `SO2Index.is_forecast`: compares the injected current UNIX time with
`get_reference_time` in `unix` mode. -/
def SO2Index.is_forecast (now : ℤ) (r : SO2Index) : Except PyError Bool :=
  (r.get_reference_time).map (fun rt => decide (now < rt))

/-- `UVIndex.get_reference_time` with the default `unix` time format. -/
def UVIndex.get_reference_time (r : UVIndex) : Except PyError ℤ :=
  timeformat_unix r.reference_time

/-- `UVIndex.get_reception_time` with the default `unix` time format. -/
def UVIndex.get_reception_time (r : UVIndex) : Except PyError ℤ :=
  timeformat_unix r.reception_time

/-- `UVIndex.get_location`. -/
def UVIndex.get_location (r : UVIndex) : Location := r.location

/-- `UVIndex.get_value`. -/
def UVIndex.get_value (r : UVIndex) : ℚ := r.value

/-- `UVIndex.get_exposure_risk`. -/
def UVIndex.get_exposure_risk (r : UVIndex) : String :=
  uv_intensity_to_exposure_risk r.value

/-- Numeric value of a decimal digit list, most significant first. -/
def natFromDigits (cs : List Char) : ℕ :=
  cs.foldl (fun a c => a * 10 + (c.toNat - 48)) 0

/-- Splits a character list at the first dot, if any. -/
def splitDot : List Char → (List Char × Option (List Char))
  | [] => ([], none)
  | '.' :: cs => ([], some cs)
  | c :: cs => let p := splitDot cs; (c :: p.1, p.2)

/-- Modelled from the spec: the numeric-string part of the Python builtin
`float` used for the coercion of `lon`, `lat`, `value`, `longitude` and
`latitude` fields — parses an optionally signed decimal literal. -/
def parseDecimal (s : String) : Option ℚ :=
  let p : Bool × List Char :=
    match s.toList with
    | '-' :: r => (true, r)
    | '+' :: r => (false, r)
    | r => (false, r)
  let ip := (splitDot p.2).1
  let q : Option ℚ :=
    match (splitDot p.2).2 with
    | none =>
      if ip.isEmpty ∨ ¬ ip.all Char.isDigit then none
      else some (mkRat (natFromDigits ip) 1)
    | some fp =>
      if (ip.isEmpty ∧ fp.isEmpty) ∨ ¬ ip.all Char.isDigit ∨ ¬ fp.all Char.isDigit then none
      else some (mkRat (natFromDigits ip * 10 ^ fp.length + natFromDigits fp) (10 ^ fp.length))
  q.map (fun v => if p.1 then -v else v)

/-- Modelled from the spec: the Python builtin `float` coercion — accepts
ints, floats and decimal numeric strings, rejects everything else. -/
def pyFloat_of : PyObj → Except PyError ℚ
  | .pyInt n => .ok (mkRat n 1)
  | .pyFloat q => .ok q
  | .pyStr s =>
    match parseDecimal s with
    | some q => .ok q
    | none => .error (.valueError "could not convert string to float")
  | _ => .error (.typeError "float argument must be a string or a number")

/-- Extracts a Python string, failing on any other kind of value (models the
attribute error a non-string raises when `.replace` is called on it). -/
def pyStr_of : PyObj → Except PyError String
  | .pyStr s => .ok s
  | _ => .error (.typeError "object has no attribute replace")

/-- Extracts a Python int, failing on any other kind of value (models the
type error a non-number raises when the constructor compares it with 0). -/
def pyInt_of : PyObj → Except PyError ℤ
  | .pyInt n => .ok n
  | _ => .error (.typeError "not supported between instances")

/-- Replaces every occurrence of a single character by a replacement string,
as Python `str.replace` does for the one-character patterns the code uses. -/
def replaceAll (needle : Char) (repl : List Char) : List Char → List Char
  | [] => []
  | c :: cs => if c = needle then repl ++ replaceAll needle repl cs else c :: replaceAll needle repl cs

/-- The timestamp preprocessing of `SO2Index.from_dict`: replace every
literal `Z` by `+00` and every literal `T` by a single space. -/
def normalizeISO (s : String) : String :=
  String.mk (replaceAll ('T') ([' ']) (replaceAll ('Z') (['+', '0', '0']) s.toList))

/-- Days from 1970-01-01 of a proleptic-Gregorian civil date. -/
def daysFromCivil (y m d : ℤ) : ℤ :=
  let y2 := if m ≤ 2 then y - 1 else y
  let era := (if 0 ≤ y2 then y2 else y2 - 399) / 400
  let yoe := y2 - era * 400
  let mp := (m + 9) % 12
  let doy := (153 * mp + 2) / 5 + d - 1
  let doe := yoe * 365 + yoe / 4 - yoe / 100 + doy
  era * 146097 + doe - 719468

/-- Modelled from the spec: `formatting.ISO8601_to_UNIXtime` (in
`pyowm/utils/formatting.py`, not under `src/`) — parses a string in the
format `YYYY-MM-DD HH:MM:SS+00` to a UNIX integer and fails with an
invalid-argument condition on anything else. -/
def ISO8601_to_UNIXtime (s : String) : Except PyError ℤ :=
  match s.toList with
  | [y1, y2, y3, y4, '-', m1, m2, '-', d1, d2, ' ',
     h1, h2, ':', n1, n2, ':', s1, s2, '+', '0', '0'] =>
    if [y1, y2, y3, y4, m1, m2, d1, d2, h1, h2, n1, n2, s1, s2].all Char.isDigit then
      let y : ℤ := (natFromDigits [y1, y2, y3, y4] : ℤ)
      let mo : ℤ := (natFromDigits [m1, m2] : ℤ)
      let d : ℤ := (natFromDigits [d1, d2] : ℤ)
      let h : ℤ := (natFromDigits [h1, h2] : ℤ)
      let mi : ℤ := (natFromDigits [n1, n2] : ℤ)
      let se : ℤ := (natFromDigits [s1, s2] : ℤ)
      .ok (daysFromCivil y mo d * 86400 + h * 3600 + mi * 60 + se)
    else .error (.valueError "time data does not match format")
  | _ => .error (.valueError "time data does not match format")

/-- The body of the `try` block of `UVIndex.from_dict`, in source order:
`date` taken verbatim, then `lon`, `lat` and `value` each subscripted and
coerced to float. -/
def uvExtract (d : PyObj) : Except PyError (PyObj × ℚ × ℚ × ℚ) :=
  match d.getItem "date" with
  | .error e => .error e
  | .ok dateRaw =>
    match d.getItem "lon" with
    | .error e => .error e
    | .ok lonRaw =>
      match pyFloat_of lonRaw with
      | .error e => .error e
      | .ok lon =>
        match d.getItem "lat" with
        | .error e => .error e
        | .ok latRaw =>
          match pyFloat_of latRaw with
          | .error e => .error e
          | .ok lat =>
            match d.getItem "value" with
            | .error e => .error e
            | .ok valueRaw =>
              match pyFloat_of valueRaw with
              | .error e => .error e
              | .ok value => .ok (dateRaw, lon, lat, value)

/-- The message of the malformed-data error of `UVIndex.from_dict`. -/
def uvParseMsg : String := "pyowm.uvindexapi30.uvindex: impossible to parse UV Index"

/-- `UVIndex.from_dict`: data-absent on `None` input; a `KeyError` inside the
`try` block is rethrown as a `ParseResponseError` wrapping it, other errors
propagate; on success the constructor is applied to the extracted fields,
the `date` field verbatim as reference time and the injected current UNIX
time as reception time. -/
def UVIndex.from_dict (now : ℤ) (the_dict : PyObj) : Except PyError UVIndex :=
  if the_dict.isNone then .error (.parseResponseError "Data is None" none)
  else
    match uvExtract the_dict with
    | .error (.keyError k) => .error (.parseResponseError uvParseMsg (some (.keyError k)))
    | .error e => .error e
    | .ok (dateRaw, lon, lat, value) =>
      match pyInt_of dateRaw with
      | .error e => .error e
      | .ok rt => UVIndex.init rt ⟨none, lon, lat, none⟩ value now

/-- The body of the `try` block of `SO2Index.from_dict`, in source order:
`time` subscripted, normalized and parsed, then `location` subscripted and
its `longitude` and `latitude` subscripted and coerced to float, then
`data` taken verbatim. -/
def so2Extract (d : PyObj) : Except PyError (ℤ × ℚ × ℚ × PyObj) :=
  match d.getItem "time" with
  | .error e => .error e
  | .ok tRaw =>
    match pyStr_of tRaw with
    | .error e => .error e
    | .ok s =>
      match ISO8601_to_UNIXtime (normalizeISO s) with
      | .error e => .error e
      | .ok rt =>
        match d.getItem "location" with
        | .error e => .error e
        | .ok locObj =>
          match locObj.getItem "longitude" with
          | .error e => .error e
          | .ok lonRaw =>
            match pyFloat_of lonRaw with
            | .error e => .error e
            | .ok lon =>
              match locObj.getItem "latitude" with
              | .error e => .error e
              | .ok latRaw =>
                match pyFloat_of latRaw with
                | .error e => .error e
                | .ok lat =>
                  match d.getItem "data" with
                  | .error e => .error e
                  | .ok samples => .ok (rt, lon, lat, samples)

/-- The message of the malformed-data error of `SO2Index.from_dict` (the
source wording says COIndex). -/
def so2ParseMsg : String := "pyowm.pollutionapi30.so2index: impossible to parse COIndex"

/-- `SO2Index.from_dict`: data-absent on `None` input; a `KeyError` inside
the `try` block is rethrown as a `ParseResponseError` wrapping it, other
errors propagate; on success the constructor is applied with the parsed
reference time, the extracted location, `None` as interval, the `data`
field verbatim as samples, and the injected current UNIX time as reception
time. -/
def SO2Index.from_dict (now : ℤ) (the_dict : PyObj) : Except PyError SO2Index :=
  if the_dict.isNone then .error (.parseResponseError "Data is None" none)
  else
    match so2Extract the_dict with
    | .error (.keyError k) => .error (.parseResponseError so2ParseMsg (some (.keyError k)))
    | .error e => .error e
    | .ok (rt, lon, lat, samples) =>
      SO2Index.init rt ⟨none, lon, lat, none⟩ none samples now

/-- `SO2Index.to_dict`: the canonical export shape, as an association list. -/
def SO2Index.to_dict (r : SO2Index) : List (String × PyObj) :=
  [("reference_time", .pyInt r.reference_time),
   ("location", r.location.to_dict),
   ("interval", optStrObj r.interval),
   ("so2_samples", r.so2_samples),
   ("reception_time", .pyInt r.reception_time)]

/-- `UVIndex.to_dict`: the canonical export shape, as an association list. -/
def UVIndex.to_dict (r : UVIndex) : List (String × PyObj) :=
  [("reference_time", .pyInt r.reference_time),
   ("location", r.location.to_dict),
   ("value", .pyFloat r.value),
   ("reception_time", .pyInt r.reception_time)]

/-- The value coerces to a float without error. -/
def floatOk (v : PyObj) : Prop := ∃ q, pyFloat_of v = .ok q

/-- Whenever the key is present in the association list, its value coerces to
a float without error. -/
def lookupFloatOk (e : List (String × PyObj)) (k : String) : Prop :=
  ∀ v, e.lookup k = some v → floatOk v

/-- At least one of the four keys `UVIndex.from_dict` requires is absent. -/
def uvRequiredMissing (e : List (String × PyObj)) : Prop :=
  e.lookup "date" = none ∨ e.lookup "lon" = none ∨
    e.lookup "lat" = none ∨ e.lookup "value" = none

/-- Whenever the `time` key is present, it holds a string whose normalized
form parses as an ISO-8601 timestamp. -/
def so2TimeOk (e : List (String × PyObj)) : Prop :=
  ∀ v, e.lookup "time" = some v →
    ∃ s t, v = .pyStr s ∧ ISO8601_to_UNIXtime (normalizeISO s) = .ok t

/-- Whenever the `location` key is present, it holds a dictionary whose
`longitude` and `latitude` entries, when present, coerce to floats. -/
def so2LocationOk (e : List (String × PyObj)) : Prop :=
  ∀ v, e.lookup "location" = some v →
    ∃ le, v = .pyDict le ∧ lookupFloatOk le "longitude" ∧ lookupFloatOk le "latitude"

/-- At least one of the keys `SO2Index.from_dict` requires — `time`,
`location`, `location.longitude`, `location.latitude` or `data` — is
absent. -/
def so2RequiredMissing (e : List (String × PyObj)) : Prop :=
  e.lookup "time" = none ∨ e.lookup "location" = none ∨
    (∃ le, e.lookup "location" = some (.pyDict le) ∧
      (le.lookup "longitude" = none ∨ le.lookup "latitude" = none)) ∨
    e.lookup "data" = none

/-- Any successful `SO2Index.init` stores the constructor arguments unchanged. -/
theorem SO2Index.init_ok (rt : ℤ) (loc : Location) (itv : Option String) (samples : PyObj)
    (rcv : ℤ) (r : SO2Index) (h : SO2Index.init rt loc itv samples rcv = .ok r) :
    r = ⟨rt, loc, itv, samples, rcv⟩ := by
  unfold SO2Index.init at h
  split_ifs at h
  exact ((Except.ok.injEq _ _).mp h).symm

/-- C1: `uv_intensity_to_exposure_risk` is a piecewise function over half-open
non-overlapping intervals: `low` on `[0, 2.9)`, `moderate` on `[2.9, 5.9)`,
`high` on `[5.9, 7.9)`, `very high` on `[7.9, 10.9)` and `extreme` on
`[10.9, ∞)`; in particular it sends 0.0 and 2.89 to `low`, 2.9 to `moderate`,
5.9 and 7.89 to `high`, 7.9 to `very high`, and 10.9 and 100.0 to `extreme`. -/
theorem uv_classifier_piecewise (x : ℚ) :
    (0.0 ≤ x → x < 2.9 → uv_intensity_to_exposure_risk x = "low") ∧
    (2.9 ≤ x → x < 5.9 → uv_intensity_to_exposure_risk x = "moderate") ∧
    (5.9 ≤ x → x < 7.9 → uv_intensity_to_exposure_risk x = "high") ∧
    (7.9 ≤ x → x < 10.9 → uv_intensity_to_exposure_risk x = "very high") ∧
    (10.9 ≤ x → uv_intensity_to_exposure_risk x = "extreme") ∧
    uv_intensity_to_exposure_risk 0.0 = "low" ∧
    uv_intensity_to_exposure_risk 2.89 = "low" ∧
    uv_intensity_to_exposure_risk 2.9 = "moderate" ∧
    uv_intensity_to_exposure_risk 5.9 = "high" ∧
    uv_intensity_to_exposure_risk 7.89 = "high" ∧
    uv_intensity_to_exposure_risk 7.9 = "very high" ∧
    uv_intensity_to_exposure_risk 10.9 = "extreme" ∧
    uv_intensity_to_exposure_risk 100.0 = "extreme" := by
  refine ⟨?_, ?_, ?_, ?_, ?_, ?_, ?_, ?_, ?_, ?_, ?_, ?_, ?_⟩
  · intro h1 h2
    unfold uv_intensity_to_exposure_risk
    rw [if_pos ⟨h1, h2⟩]
  · intro h1 h2
    unfold uv_intensity_to_exposure_risk
    rw [if_neg (by rintro ⟨hx, hy⟩; linarith), if_pos ⟨h1, h2⟩]
  · intro h1 h2
    unfold uv_intensity_to_exposure_risk
    rw [if_neg (by rintro ⟨hx, hy⟩; linarith), if_neg (by rintro ⟨hx, hy⟩; linarith),
      if_pos ⟨h1, h2⟩]
  · intro h1 h2
    unfold uv_intensity_to_exposure_risk
    rw [if_neg (by rintro ⟨hx, hy⟩; linarith), if_neg (by rintro ⟨hx, hy⟩; linarith),
      if_neg (by rintro ⟨hx, hy⟩; linarith), if_pos ⟨h1, h2⟩]
  · intro h1
    unfold uv_intensity_to_exposure_risk
    rw [if_neg (by rintro ⟨hx, hy⟩; linarith), if_neg (by rintro ⟨hx, hy⟩; linarith),
      if_neg (by rintro ⟨hx, hy⟩; linarith), if_neg (by rintro ⟨hx, hy⟩; linarith)]
  all_goals norm_num [uv_intensity_to_exposure_risk]

/-- Witness for C1 at the concrete intensity 1. -/
theorem uv_classifier_piecewise_witness : uv_intensity_to_exposure_risk 1 = "low" :=
  (uv_classifier_piecewise 1).1 (by norm_num) (by norm_num)

/-- C9: the catch-all `else` branch sends every negative intensity to
`extreme`, the same label as intensities at or above 10.9. -/
theorem uv_classifier_negative_extreme (x : ℚ) (h : x < 0) :
    uv_intensity_to_exposure_risk x = "extreme" := by
  unfold uv_intensity_to_exposure_risk
  rw [if_neg (by rintro ⟨hx, hy⟩; linarith), if_neg (by rintro ⟨hx, hy⟩; linarith),
    if_neg (by rintro ⟨hx, hy⟩; linarith), if_neg (by rintro ⟨hx, hy⟩; linarith)]

/-- Witness for C9 at the concrete intensity -1. -/
theorem uv_classifier_negative_extreme_witness :
    uv_intensity_to_exposure_risk (-1) = "extreme" :=
  uv_classifier_negative_extreme (-1) (by norm_num)

/-- C2 counterexample: a tuple is a sequence type, yet `SO2Index.init` with a
tuple of samples and otherwise valid fields fails with an invalid-argument
condition instead of succeeding. -/
theorem so2_tuple_rejected :
    SO2Index.init 0 ⟨none, 1, 2, none⟩ none (.pyTuple []) 0 =
      .error (.valueError "so2_samples must be a list") := rfl

/-- C2 amended: with otherwise valid fields, `SO2Index.init` succeeds exactly
when `so2_samples` is a Python list; every non-list value — a tuple, a dict
or a number included — fails with an invalid-argument condition. -/
theorem so2_samples_list_iff (rt rcv : ℤ) (loc : Location) (itv : Option String)
    (samples : PyObj) (h1 : 0 ≤ rt) (h2 : 0 ≤ rcv) :
    ((∃ r, SO2Index.init rt loc itv samples rcv = .ok r) ↔ samples.isList = true) ∧
    (samples.isList = false →
      SO2Index.init rt loc itv samples rcv = .error (.valueError "so2_samples must be a list")) := by
  have h1x : ¬ rt < 0 := not_lt.mpr h1
  have h2x : ¬ rcv < 0 := not_lt.mpr h2
  unfold SO2Index.init
  cases hs : samples.isList
  · simp [hs, h1x, h2x]
  · simp [hs, h1x, h2x]

/-- Witness for the amended C2: an empty list of samples is accepted, and
the same construction with a number in place of the samples is rejected. -/
theorem so2_samples_list_iff_witness :
    ((∃ r, SO2Index.init 3 ⟨none, 1, 2, none⟩ none (.pyList []) 4 = .ok r) ↔
      (PyObj.pyList []).isList = true) ∧
    ((PyObj.pyList []).isList = false →
      SO2Index.init 3 ⟨none, 1, 2, none⟩ none (.pyList []) 4 =
        .error (.valueError "so2_samples must be a list")) :=
  so2_samples_list_iff 3 4 ⟨none, 1, 2, none⟩ none (.pyList []) (by norm_num) (by norm_num)

/-- C3: for both variants, a negative reference or reception time (and for
`UVIndex` a negative value) makes construction fail with an invalid-argument
condition, while non-negative fields (with a list of samples for `SO2Index`)
make it succeed with accessors returning exactly the constructed values. -/
theorem construction_invariants (rt rcv : ℤ) (loc : Location) (itv : Option String)
    (samples : PyObj) (v : ℚ) :
    (rt < 0 ∨ rcv < 0 →
      (∃ m, SO2Index.init rt loc itv samples rcv = .error (.valueError m)) ∧
      (∃ m, UVIndex.init rt loc v rcv = .error (.valueError m))) ∧
    (v < 0.0 → ∃ m, UVIndex.init rt loc v rcv = .error (.valueError m)) ∧
    (0 ≤ rt → 0 ≤ rcv → samples.isList = true →
      ∃ r, SO2Index.init rt loc itv samples rcv = .ok r ∧
        r.get_reference_time = .ok rt ∧ r.get_reception_time = .ok rcv ∧
        r.get_location = loc ∧ r.get_interval = itv ∧ r.get_so2_samples = samples) ∧
    (0 ≤ rt → 0 ≤ rcv → 0.0 ≤ v →
      ∃ u, UVIndex.init rt loc v rcv = .ok u ∧
        u.get_reference_time = .ok rt ∧ u.get_reception_time = .ok rcv ∧
        u.get_location = loc ∧ u.get_value = v) := by
  refine ⟨?_, ?_, ?_, ?_⟩
  · intro h
    constructor
    · unfold SO2Index.init
      rcases h with h | h
      · exact ⟨_, if_pos h⟩
      · by_cases a1 : rt < 0
        · exact ⟨_, if_pos a1⟩
        · rw [if_neg a1]
          by_cases a2 : ¬ samples.isList
          · exact ⟨_, if_pos a2⟩
          · rw [if_neg a2]
            exact ⟨_, if_pos h⟩
    · unfold UVIndex.init
      rcases h with h | h
      · exact ⟨_, if_pos h⟩
      · by_cases a1 : rt < 0
        · exact ⟨_, if_pos a1⟩
        · rw [if_neg a1]
          by_cases a2 : v < 0.0
          · exact ⟨_, if_pos a2⟩
          · rw [if_neg a2]
            exact ⟨_, if_pos h⟩
  · intro h
    unfold UVIndex.init
    by_cases a1 : rt < 0
    · exact ⟨_, if_pos a1⟩
    · rw [if_neg a1]
      exact ⟨_, if_pos h⟩
  · intro h1 h2 hs
    have h1x : ¬ rt < 0 := not_lt.mpr h1
    have h2x : ¬ rcv < 0 := not_lt.mpr h2
    refine ⟨⟨rt, loc, itv, samples, rcv⟩, ?_, ?_, ?_, rfl, rfl, rfl⟩
    · unfold SO2Index.init
      rw [if_neg h1x, if_neg (by simp [hs]), if_neg h2x]
    · unfold SO2Index.get_reference_time timeformat_unix
      exact if_neg h1x
    · unfold SO2Index.get_reception_time timeformat_unix
      exact if_neg h2x
  · intro h1 h2 hv
    have h1x : ¬ rt < 0 := not_lt.mpr h1
    have h2x : ¬ rcv < 0 := not_lt.mpr h2
    refine ⟨⟨rt, loc, v, rcv⟩, ?_, ?_, ?_, rfl, rfl⟩
    · unfold UVIndex.init
      rw [if_neg h1x, if_neg (not_lt.mpr hv), if_neg h2x]
    · unfold UVIndex.get_reference_time timeformat_unix
      exact if_neg h1x
    · unfold UVIndex.get_reception_time timeformat_unix
      exact if_neg h2x

/-- Witness for C3: a rejected negative reference time and an accepted fully
non-negative construction, both at concrete inputs. -/
theorem construction_invariants_witness :
    ((∃ m, SO2Index.init (-1) ⟨none, 1, 2, none⟩ none (.pyList []) 0 = .error (.valueError m)) ∧
     (∃ m, UVIndex.init (-1) ⟨none, 1, 2, none⟩ 3 0 = .error (.valueError m))) ∧
    (∃ u, UVIndex.init 1 ⟨none, 1, 2, none⟩ 3 2 = .ok u ∧
      u.get_reference_time = .ok 1 ∧ u.get_reception_time = .ok 2 ∧
      u.get_location = ⟨none, 1, 2, none⟩ ∧ u.get_value = 3) :=
  ⟨(construction_invariants (-1) 0 ⟨none, 1, 2, none⟩ none (.pyList []) 3).1 (Or.inl (by norm_num)),
   (construction_invariants 1 2 ⟨none, 1, 2, none⟩ none (.pyList []) 3).2.2.2
     (by norm_num) (by norm_num) (by norm_num)⟩

/-- C4: for every record with the non-negative reference time construction
guarantees, `is_forecast` succeeds and answers true exactly when the current
time is strictly below the reference time; equal times give false. -/
theorem so2_is_forecast_iff (now : ℤ) (r : SO2Index) (h : 0 ≤ r.reference_time) :
    (SO2Index.is_forecast now r = .ok true ↔ now < r.reference_time) ∧
    (now = r.reference_time → SO2Index.is_forecast now r = .ok false) := by
  unfold SO2Index.is_forecast SO2Index.get_reference_time timeformat_unix
  rw [if_neg (not_lt.mpr h)]
  constructor
  · simp [Except.map]
  · intro he
    simp [Except.map, he]

/-- Witness for C4: a record with reference time 5 queried at current times
3 and 5. -/
theorem so2_is_forecast_iff_witness :
    ((SO2Index.is_forecast 3 ⟨5, ⟨none, 1, 2, none⟩, none, .pyList [], 0⟩ = .ok true ↔
        (3 : ℤ) < (⟨5, ⟨none, 1, 2, none⟩, none, .pyList [], 0⟩ : SO2Index).reference_time) ∧
      ((3 : ℤ) = (⟨5, ⟨none, 1, 2, none⟩, none, .pyList [], 0⟩ : SO2Index).reference_time →
        SO2Index.is_forecast 3 ⟨5, ⟨none, 1, 2, none⟩, none, .pyList [], 0⟩ = .ok false)) ∧
    ((5 : ℤ) = (⟨5, ⟨none, 1, 2, none⟩, none, .pyList [], 0⟩ : SO2Index).reference_time →
      SO2Index.is_forecast 5 ⟨5, ⟨none, 1, 2, none⟩, none, .pyList [], 0⟩ = .ok false) :=
  ⟨so2_is_forecast_iff 3 ⟨5, ⟨none, 1, 2, none⟩, none, .pyList [], 0⟩ (by norm_num),
   (so2_is_forecast_iff 5 ⟨5, ⟨none, 1, 2, none⟩, none, .pyList [], 0⟩ (by norm_num)).2⟩

/-- C8: for every record of either variant, `to_dict` has exactly the
documented keys in order, each mapped to the stored field, the location
through its own canonical dict form. -/
theorem to_dict_shape (r : SO2Index) (u : UVIndex) :
    r.to_dict.map Prod.fst =
      ["reference_time", "location", "interval", "so2_samples", "reception_time"] ∧
    r.to_dict.lookup "reference_time" = some (.pyInt r.reference_time) ∧
    r.to_dict.lookup "location" = some r.location.to_dict ∧
    r.to_dict.lookup "interval" = some (optStrObj r.interval) ∧
    r.to_dict.lookup "so2_samples" = some r.so2_samples ∧
    r.to_dict.lookup "reception_time" = some (.pyInt r.reception_time) ∧
    u.to_dict.map Prod.fst = ["reference_time", "location", "value", "reception_time"] ∧
    u.to_dict.lookup "reference_time" = some (.pyInt u.reference_time) ∧
    u.to_dict.lookup "location" = some u.location.to_dict ∧
    u.to_dict.lookup "value" = some (.pyFloat u.value) ∧
    u.to_dict.lookup "reception_time" = some (.pyInt u.reception_time) :=
  ⟨rfl, rfl, rfl, rfl, rfl, rfl, rfl, rfl, rfl, rfl, rfl⟩

/-- C10: every record `SO2Index.from_dict` returns has its interval unset:
`get_interval` gives `None` and the serialized `interval` entry is `None`. -/
theorem so2_from_dict_interval_none (now : ℤ) (d : PyObj) (r : SO2Index)
    (h : SO2Index.from_dict now d = .ok r) :
    r.get_interval = none ∧ r.to_dict.lookup "interval" = some PyObj.pyNone := by
  unfold SO2Index.from_dict at h
  split at h
  · exact absurd h (by simp)
  · split at h
    · exact absurd h (by simp)
    · exact absurd h (by simp)
    · rename_i rt lon lat samples
      have hr := SO2Index.init_ok _ _ _ _ _ _ h
      subst hr
      exact ⟨rfl, rfl⟩

/-- Witness for C10 at a concrete parsed payload. -/
theorem so2_from_dict_interval_none_witness :
    SO2Index.get_interval
        ⟨1577836800, ⟨none, 1, 2, none⟩, none, .pyList [.pyDict [("a", .pyInt 1)]], 1⟩ = none ∧
      (SO2Index.to_dict
          ⟨1577836800, ⟨none, 1, 2, none⟩, none, .pyList [.pyDict [("a", .pyInt 1)]], 1⟩).lookup
        "interval" = some PyObj.pyNone :=
  so2_from_dict_interval_none 1
    (.pyDict [("time", .pyStr "2020-01-01T00:00:00Z"),
              ("location", .pyDict [("longitude", .pyStr "1.0"), ("latitude", .pyStr "2.0")]),
              ("data", .pyList [.pyDict [("a", .pyInt 1)]])])
    ⟨1577836800, ⟨none, 1, 2, none⟩, none, .pyList [.pyDict [("a", .pyInt 1)]], 1⟩ rfl

/-- C6: `SO2Index.from_dict` on a payload with all required fields parses the
`time` string after replacing `Z` by `+00` and `T` by a space, builds the
location from the float-coerced `location.longitude` and
`location.latitude`, takes `so2_samples` verbatim from `data`, and stamps
the injected current time; at the concrete documented payload it yields
longitude 1.0, latitude 2.0 and the verbatim sample list. -/
theorem so2_from_dict_success (now rt : ℤ) (e le : List (String × PyObj)) (s : String)
    (lonRaw latRaw samples : PyObj) (lon lat : ℚ)
    (ht : e.lookup "time" = some (.pyStr s))
    (hrt : ISO8601_to_UNIXtime (normalizeISO s) = .ok rt)
    (hloc : e.lookup "location" = some (.pyDict le))
    (hlon : le.lookup "longitude" = some lonRaw) (hlonf : pyFloat_of lonRaw = .ok lon)
    (hlat : le.lookup "latitude" = some latRaw) (hlatf : pyFloat_of latRaw = .ok lat)
    (hdata : e.lookup "data" = some samples)
    (hrt0 : 0 ≤ rt) (hs : samples.isList = true) (hnow : 0 ≤ now) :
    SO2Index.from_dict now (.pyDict e) =
      .ok ⟨rt, ⟨none, lon, lat, none⟩, none, samples, now⟩ ∧
    SO2Index.from_dict 0
        (.pyDict [("time", .pyStr "2020-01-01T00:00:00Z"),
                  ("location", .pyDict [("longitude", .pyStr "1.0"), ("latitude", .pyStr "2.0")]),
                  ("data", .pyList [.pyDict [("a", .pyInt 1)]])]) =
      .ok ⟨1577836800, ⟨none, 1, 2, none⟩, none, .pyList [.pyDict [("a", .pyInt 1)]], 0⟩ := by
  constructor
  · have h1x : ¬ rt < 0 := not_lt.mpr hrt0
    have h2x : ¬ now < 0 := not_lt.mpr hnow
    have hx : so2Extract (.pyDict e) = .ok (rt, lon, lat, samples) := by
      unfold so2Extract
      simp [PyObj.getItem, ht, hloc, hlon, hlat, hdata, hrt, hlonf, hlatf, pyStr_of]
    unfold SO2Index.from_dict
    rw [show (PyObj.pyDict e).isNone = false from rfl]
    rw [if_neg Bool.false_ne_true, hx]
    show SO2Index.init rt ⟨none, lon, lat, none⟩ none samples now = _
    unfold SO2Index.init
    rw [if_neg h1x, if_neg (by simp [hs]), if_neg h2x]
  · rfl

/-- Witness for C6: the general part applied at the documented payload. -/
theorem so2_from_dict_success_witness :
    SO2Index.from_dict 0
        (.pyDict [("time", .pyStr "2020-01-01T00:00:00Z"),
                  ("location", .pyDict [("longitude", .pyStr "1.0"), ("latitude", .pyStr "2.0")]),
                  ("data", .pyList [.pyDict [("a", .pyInt 1)]])]) =
      .ok ⟨1577836800, ⟨none, 1, 2, none⟩, none, .pyList [.pyDict [("a", .pyInt 1)]], 0⟩ :=
  (so2_from_dict_success 0 1577836800
    [("time", .pyStr "2020-01-01T00:00:00Z"),
     ("location", .pyDict [("longitude", .pyStr "1.0"), ("latitude", .pyStr "2.0")]),
     ("data", .pyList [.pyDict [("a", .pyInt 1)]])]
    [("longitude", .pyStr "1.0"), ("latitude", .pyStr "2.0")]
    "2020-01-01T00:00:00Z" (.pyStr "1.0") (.pyStr "2.0")
    (.pyList [.pyDict [("a", .pyInt 1)]]) 1 2
    rfl rfl rfl rfl rfl rfl rfl rfl (by norm_num) rfl (by norm_num)).1

/-- C7: `UVIndex.from_dict` on a payload with all required fields takes the
reference time directly from `date` with no reformatting, stamps the
injected current time as reception time, builds the location from the
float-coerced `lon` and `lat`, coerces `value` to float, and the accessors
of the returned record give back exactly these values. -/
theorem uv_from_dict_success (now rt : ℤ) (e : List (String × PyObj))
    (lonRaw latRaw valueRaw : PyObj) (lon lat v : ℚ)
    (hdate : e.lookup "date" = some (.pyInt rt))
    (hlon : e.lookup "lon" = some lonRaw) (hlonf : pyFloat_of lonRaw = .ok lon)
    (hlat : e.lookup "lat" = some latRaw) (hlatf : pyFloat_of latRaw = .ok lat)
    (hval : e.lookup "value" = some valueRaw) (hvalf : pyFloat_of valueRaw = .ok v)
    (hrt0 : 0 ≤ rt) (hv : 0.0 ≤ v) (hnow : 0 ≤ now) :
    UVIndex.from_dict now (.pyDict e) = .ok ⟨rt, ⟨none, lon, lat, none⟩, v, now⟩ ∧
    UVIndex.get_reference_time ⟨rt, ⟨none, lon, lat, none⟩, v, now⟩ = .ok rt ∧
    UVIndex.get_reception_time ⟨rt, ⟨none, lon, lat, none⟩, v, now⟩ = .ok now ∧
    UVIndex.get_location ⟨rt, ⟨none, lon, lat, none⟩, v, now⟩ = ⟨none, lon, lat, none⟩ ∧
    UVIndex.get_value ⟨rt, ⟨none, lon, lat, none⟩, v, now⟩ = v := by
  have h1x : ¬ rt < 0 := not_lt.mpr hrt0
  have h2x : ¬ now < 0 := not_lt.mpr hnow
  refine ⟨?_, ?_, ?_, rfl, rfl⟩
  · have hx : uvExtract (.pyDict e) = .ok (.pyInt rt, lon, lat, v) := by
      unfold uvExtract
      simp [PyObj.getItem, hdate, hlon, hlat, hval, hlonf, hlatf, hvalf]
    unfold UVIndex.from_dict
    rw [show (PyObj.pyDict e).isNone = false from rfl]
    rw [if_neg Bool.false_ne_true, hx]
    show UVIndex.init rt ⟨none, lon, lat, none⟩ v now = _
    unfold UVIndex.init
    rw [if_neg h1x, if_neg (not_lt.mpr hv), if_neg h2x]
  · unfold UVIndex.get_reference_time timeformat_unix
    exact if_neg h1x
  · unfold UVIndex.get_reception_time timeformat_unix
    exact if_neg h2x

/-- Witness for C7 at a concrete payload with an integer date, numeric
coordinates and a string value. -/
theorem uv_from_dict_success_witness :
    UVIndex.from_dict 7
        (.pyDict [("date", .pyInt 100), ("lon", .pyInt 1), ("lat", .pyInt 2),
                  ("value", .pyStr "3.5")]) =
      .ok ⟨100, ⟨none, 1, 2, none⟩, mkRat 35 10, 7⟩ ∧
    UVIndex.get_reference_time ⟨100, ⟨none, 1, 2, none⟩, mkRat 35 10, 7⟩ = .ok 100 ∧
    UVIndex.get_reception_time ⟨100, ⟨none, 1, 2, none⟩, mkRat 35 10, 7⟩ = .ok 7 ∧
    UVIndex.get_location ⟨100, ⟨none, 1, 2, none⟩, mkRat 35 10, 7⟩ = ⟨none, 1, 2, none⟩ ∧
    UVIndex.get_value ⟨100, ⟨none, 1, 2, none⟩, mkRat 35 10, 7⟩ = mkRat 35 10 :=
  uv_from_dict_success 7 100
    [("date", .pyInt 100), ("lon", .pyInt 1), ("lat", .pyInt 2), ("value", .pyStr "3.5")]
    (.pyInt 1) (.pyInt 2) (.pyStr "3.5") 1 2 (mkRat 35 10)
    rfl rfl rfl rfl rfl rfl rfl (by norm_num) (by norm_num) (by norm_num)

/-- C5: for both variants `from_dict` of `None` fails with the data-absent
condition, and `from_dict` of a dictionary lacking a required key — its
other entries being of the expected wire shape — fails with a
malformed-data condition wrapping the missing-key cause. -/
theorem from_dict_missing_data (now : ℤ) :
    UVIndex.from_dict now PyObj.pyNone = .error (.parseResponseError "Data is None" none) ∧
    SO2Index.from_dict now PyObj.pyNone = .error (.parseResponseError "Data is None" none) ∧
    (∀ e, lookupFloatOk e "lon" → lookupFloatOk e "lat" → uvRequiredMissing e →
      ∃ k, UVIndex.from_dict now (.pyDict e) =
        .error (.parseResponseError uvParseMsg (some (.keyError k)))) ∧
    (∀ e, so2TimeOk e → so2LocationOk e → so2RequiredMissing e →
      ∃ k, SO2Index.from_dict now (.pyDict e) =
        .error (.parseResponseError so2ParseMsg (some (.keyError k)))) := by
  refine ⟨rfl, rfl, ?_, ?_⟩
  · intro e hlonok hlatok hmiss
    unfold UVIndex.from_dict
    rw [show (PyObj.pyDict e).isNone = false from rfl, if_neg Bool.false_ne_true]
    cases hdate : e.lookup "date" with
    | none =>
      refine ⟨"date", ?_⟩
      have hx : uvExtract (.pyDict e) = .error (.keyError "date") := by
        unfold uvExtract
        simp [PyObj.getItem, hdate]
      rw [hx]
    | some dv =>
      cases hlon : e.lookup "lon" with
      | none =>
        refine ⟨"lon", ?_⟩
        have hx : uvExtract (.pyDict e) = .error (.keyError "lon") := by
          unfold uvExtract
          simp [PyObj.getItem, hdate, hlon]
        rw [hx]
      | some lv =>
        obtain ⟨lq, hlq⟩ := hlonok lv hlon
        cases hlat : e.lookup "lat" with
        | none =>
          refine ⟨"lat", ?_⟩
          have hx : uvExtract (.pyDict e) = .error (.keyError "lat") := by
            unfold uvExtract
            simp [PyObj.getItem, hdate, hlon, hlq, hlat]
          rw [hx]
        | some tv =>
          obtain ⟨tq, htq⟩ := hlatok tv hlat
          cases hval : e.lookup "value" with
          | none =>
            refine ⟨"value", ?_⟩
            have hx : uvExtract (.pyDict e) = .error (.keyError "value") := by
              unfold uvExtract
              simp [PyObj.getItem, hdate, hlon, hlq, hlat, htq, hval]
            rw [hx]
          | some vv =>
            rcases hmiss with h | h | h | h
            · rw [hdate] at h
              exact absurd h (by simp)
            · rw [hlon] at h
              exact absurd h (by simp)
            · rw [hlat] at h
              exact absurd h (by simp)
            · rw [hval] at h
              exact absurd h (by simp)
  · intro e htime hloc hmiss
    unfold SO2Index.from_dict
    rw [show (PyObj.pyDict e).isNone = false from rfl, if_neg Bool.false_ne_true]
    cases ht : e.lookup "time" with
    | none =>
      refine ⟨"time", ?_⟩
      have hx : so2Extract (.pyDict e) = .error (.keyError "time") := by
        unfold so2Extract
        simp [PyObj.getItem, ht]
      rw [hx]
    | some tv =>
      obtain ⟨s, t, rfl, hparse⟩ := htime tv ht
      cases hl : e.lookup "location" with
      | none =>
        refine ⟨"location", ?_⟩
        have hx : so2Extract (.pyDict e) = .error (.keyError "location") := by
          unfold so2Extract
          simp [PyObj.getItem, ht, pyStr_of, hparse, hl]
        rw [hx]
      | some lv =>
        obtain ⟨le, rfl, hlonok, hlatok⟩ := hloc lv hl
        cases hlon : le.lookup "longitude" with
        | none =>
          refine ⟨"longitude", ?_⟩
          have hx : so2Extract (.pyDict e) = .error (.keyError "longitude") := by
            unfold so2Extract
            simp [PyObj.getItem, ht, pyStr_of, hparse, hl, hlon]
          rw [hx]
        | some lov =>
          obtain ⟨lq, hlq⟩ := hlonok lov hlon
          cases hlat : le.lookup "latitude" with
          | none =>
            refine ⟨"latitude", ?_⟩
            have hx : so2Extract (.pyDict e) = .error (.keyError "latitude") := by
              unfold so2Extract
              simp [PyObj.getItem, ht, pyStr_of, hparse, hl, hlon, hlq, hlat]
            rw [hx]
          | some lav =>
            obtain ⟨aq, haq⟩ := hlatok lav hlat
            cases hdata : e.lookup "data" with
            | none =>
              refine ⟨"data", ?_⟩
              have hx : so2Extract (.pyDict e) = .error (.keyError "data") := by
                unfold so2Extract
                simp [PyObj.getItem, ht, pyStr_of, hparse, hl, hlon, hlq, hlat, haq, hdata]
              rw [hx]
            | some dd =>
              rcases hmiss with h | h | ⟨le2, hle2, h⟩ | h
              · rw [ht] at h
                exact absurd h (by simp)
              · rw [hl] at h
                exact absurd h (by simp)
              · rw [hl] at hle2
                have hle : le2 = le := by
                  cases hle2
                  rfl
                subst hle
                rcases h with h | h
                · rw [hlon] at h
                  exact absurd h (by simp)
                · rw [hlat] at h
                  exact absurd h (by simp)
              · rw [hdata] at h
                exact absurd h (by simp)

/-- Witness for C5: the documented missing-`value` UV payload and a SO2
payload holding only a parseable `time`. -/
theorem from_dict_missing_data_witness :
    (∃ k, UVIndex.from_dict 0 (.pyDict [("date", .pyInt 1), ("lon", .pyInt 1), ("lat", .pyInt 1)]) =
      .error (.parseResponseError uvParseMsg (some (.keyError k)))) ∧
    (∃ k, SO2Index.from_dict 0 (.pyDict [("time", .pyStr "2020-01-01T00:00:00Z")]) =
      .error (.parseResponseError so2ParseMsg (some (.keyError k)))) := by
  constructor
  · refine (from_dict_missing_data 0).2.2.1 [("date", .pyInt 1), ("lon", .pyInt 1), ("lat", .pyInt 1)] ?_ ?_ ?_
    · intro v h
      simp only [List.lookup] at h
      refine ⟨1, ?_⟩
      rw [show v = PyObj.pyInt 1 from by simp_all]
      rfl
    · intro v h
      simp only [List.lookup] at h
      refine ⟨1, ?_⟩
      rw [show v = PyObj.pyInt 1 from by simp_all]
      rfl
    · exact Or.inr (Or.inr (Or.inr rfl))
  · refine (from_dict_missing_data 0).2.2.2 [("time", .pyStr "2020-01-01T00:00:00Z")] ?_ ?_ ?_
    · intro v h
      simp only [List.lookup] at h
      refine ⟨"2020-01-01T00:00:00Z", 1577836800, ?_, ?_⟩
      · simp_all
      · rfl
    · intro v h
      simp [List.lookup] at h
    · exact Or.inr (Or.inl rfl)
